import Mathlib

/-!
# Verification of the ECX key-management core (`wp_ecx_kmgmt.c`)

A shallow embedding of the ECX key-management code of wolfProvider
(`src/wp_ecx_kmgmt.c`) together with proofs about its claims.

Modelling conventions:
* C `int` return codes of the `wp_*` layer are modelled as `Bool`
  (`1` ↦ `true`, `0` ↦ `false`).
* Machine bytes are `Nat` (values `< 256` where relevant); raw keys are
  `List Nat`.
* The wolfSSL primitive operations (`wc_*`) are external to this repository.
  They are modelled from the spec (§4.1): an import primitive checks the
  byte length for the family and stores the bytes; an export primitive
  yields the stored bytes and fails exactly when the material is absent.
* The global `wolfssl_prov_is_running()` state is threaded through as an
  explicit `running : Bool` argument to each function that checks it.
* Fallible C functions returning pointers are modelled with `Option`.
-/

/-! ## Selection flags (OpenSSL `OSSL_KEYMGMT_SELECT_*` constants) -/

/-- `OSSL_KEYMGMT_SELECT_PRIVATE_KEY` (0x01). -/
def SELECT_PRIVATE_KEY : Nat := 1

/-- `OSSL_KEYMGMT_SELECT_PUBLIC_KEY` (0x02). -/
def SELECT_PUBLIC_KEY : Nat := 2

/-- `OSSL_KEYMGMT_SELECT_KEYPAIR` (0x03). -/
def SELECT_KEYPAIR : Nat := 3

/-- `OSSL_KEYMGMT_SELECT_ALL_PARAMETERS` (0x0c). -/
def SELECT_ALL_PARAMETERS : Nat := 12

/-- `WP_ECX_POSSIBLE_SELECTIONS = KEYPAIR | ALL_PARAMETERS` (0x0f). -/
def POSSIBLE_SELECTIONS : Nat := 15

/-! ## Key material and the wolfSSL primitives

The wolfSSL key union (`curve25519_key`, `curve448_key`, `ed25519_key`,
`ed448_key`) is modelled by the observable state the primitives expose:
the stored raw public and private bytes (absent when not yet set).
-/

/-- Modelled from the spec: observable state of a wolfSSL ECX key object
(the `key` union of `struct wp_Ecx`).  `pubBytes`/`privBytes` hold the raw
little-endian key bytes once imported or generated, `none` before. -/
structure WcKey where
  pubBytes : Option (List Nat)
  privBytes : Option (List Nat)
  deriving Repr, DecidableEq

/-- A freshly initialized (zeroed) wolfSSL key object: no material. -/
def WcKey.empty : WcKey := ⟨none, none⟩

/-- Modelled from the spec: a wolfSSL public-key import primitive
(`wc_curve25519_import_public_ex` etc., external to this repository).
It rejects a buffer whose length is not the family's encoded length and
otherwise stores the bytes as the public component. -/
def wc_import_public (len : Nat) (input : List Nat) (key : WcKey) :
    Option WcKey :=
  if input.length = len then some { key with pubBytes := some input } else none

/-- Modelled from the spec: a wolfSSL private-key import primitive
(`wc_curve25519_import_private_ex`, `wc_ed25519_import_private_only` etc.,
external to this repository).  Rejects a wrong-length buffer, otherwise
stores the bytes as the private component. -/
def wc_import_private (len : Nat) (input : List Nat) (key : WcKey) :
    Option WcKey :=
  if input.length = len then some { key with privBytes := some input } else none

/-- Modelled from the spec (§4.1): a wolfSSL public-key export primitive;
fails exactly when the public material is absent, otherwise yields the
stored raw bytes. -/
def wc_export_public (key : WcKey) : Option (List Nat) := key.pubBytes

/-- Modelled from the spec (§4.1): a wolfSSL private-key export primitive;
fails exactly when the private material is absent. -/
def wc_export_private (key : WcKey) : Option (List Nat) := key.privBytes

/-! ## Curve descriptors (`wp_EcxData`) -/

/-- Per-curve-family data and method table, `struct wp_EcxData`.
The function fields carry the per-family primitive operations the
key-management code dispatches through (only the ones the claims
exercise: import/export of public/private components). -/
structure WpEcxData where
  keyType : Nat
  bits : Int
  len : Nat
  importPub : List Nat → WcKey → Option WcKey
  exportPub : WcKey → Option (List Nat)
  importPriv : List Nat → WcKey → Option WcKey
  exportPriv : WcKey → Option (List Nat)

/-- `CURVE25519_KEYSIZE` (32 bytes). -/
def CURVE25519_KEYSIZE : Nat := 32

/-- `CURVE448_KEY_SIZE` (56 bytes). -/
def CURVE448_KEY_SIZE : Nat := 56

/-- `ED25519_KEY_SIZE` (32 bytes). -/
def ED25519_KEY_SIZE : Nat := 32

/-- `ED448_KEY_SIZE` (57 bytes). -/
def ED448_KEY_SIZE : Nat := 57

/-- `wp_x25519_import_public`: the X25519 adapter.  OpenSSL's wire encoding
may set the top bit of the last byte; the adapter masks it off before
delegating to the primitive import.  The C tests `in[31] & 0x80` and
clears with `&= 0x7f`; with bytes as `Nat` these are `b / 128 % 2 = 1`
and `b % 128`. -/
def wp_x25519_import_public (input : List Nat) (key : WcKey) : Option WcKey :=
  let b := input.getD (CURVE25519_KEYSIZE - 1) 0
  let input' :=
    if b / 128 % 2 = 1 then input.set (CURVE25519_KEYSIZE - 1) (b % 128)
    else input
  wc_import_public CURVE25519_KEYSIZE input' key

/-- `x25519Data`: X25519 descriptor (key type 1, 255 bits, 32-byte keys);
public import goes through the masking adapter `wp_x25519_import_public`. -/
def x25519Data : WpEcxData where
  keyType := 1
  bits := 255
  len := CURVE25519_KEYSIZE
  importPub := wp_x25519_import_public
  exportPub := wc_export_public
  importPriv := wc_import_private CURVE25519_KEYSIZE
  exportPriv := wc_export_private

/-- `x448Data`: X448 descriptor (key type 2, 448 bits, 56-byte keys);
public import delegates directly to the primitive
(`wc_curve448_import_public_ex`) — there is no masking adapter. -/
def x448Data : WpEcxData where
  keyType := 2
  bits := 448
  len := CURVE448_KEY_SIZE
  importPub := wc_import_public CURVE448_KEY_SIZE
  exportPub := wc_export_public
  importPriv := wc_import_private CURVE448_KEY_SIZE
  exportPriv := wc_export_private

/-- `ed25519Data`: Ed25519 descriptor (key type 3, 255 bits, 32-byte keys). -/
def ed25519Data : WpEcxData where
  keyType := 3
  bits := 255
  len := ED25519_KEY_SIZE
  importPub := wc_import_public ED25519_KEY_SIZE
  exportPub := wc_export_public
  importPriv := wc_import_private ED25519_KEY_SIZE
  exportPriv := wc_export_private

/-- `ed448Data`: Ed448 descriptor (key type 4, 448 bits, 57-byte keys). -/
def ed448Data : WpEcxData where
  keyType := 4
  bits := 448
  len := ED448_KEY_SIZE
  importPub := wc_import_public ED448_KEY_SIZE
  exportPub := wc_export_public
  importPriv := wc_import_private ED448_KEY_SIZE
  exportPriv := wc_export_private

/-! ## The ECX key object (`struct wp_Ecx`) -/

/-- `struct wp_Ecx`: the reference-counted ECX key object.  The mutex and
provider context are not modelled (the mutex only serializes `refCnt`
updates; the provider context is an opaque back-pointer). -/
structure WpEcx where
  key : WcKey
  data : WpEcxData
  refCnt : Int
  includePublic : Bool
  hasPub : Bool
  hasPriv : Bool

/-- `wp_ecx_new`: allocates a zeroed object, initializes the key material,
sets the reference count to 1.  Fails (returns NULL) when the provider is
not running. -/
def wp_ecx_new (running : Bool) (data : WpEcxData) : Option WpEcx :=
  if running then
    some { key := WcKey.empty, data := data, refCnt := 1,
           includePublic := false, hasPub := false, hasPriv := false }
  else none

/-! ## Reference-count lifecycle (claim C1)

For the lifecycle claim only the reference count and the
destruction events matter; `LifeState` abstracts one live object to the
fields `wp_ecx_up_ref`/`wp_ecx_free` read and write, plus a counter of
how many times the material was freed and the object deallocated. -/

/-- Lifecycle state of one ECX key object: its reference count and the
number of times the key material has been destroyed and the object
deallocated (0 while live, and it must only ever reach 1). -/
structure LifeState where
  refCnt : Int
  freedCount : Nat
  deriving Repr, DecidableEq

/-- Lifecycle state right after `wp_ecx_new`: `refCnt = 1`, nothing freed. -/
def newLifeState : LifeState := { refCnt := 1, freedCount := 0 }

/-- `wp_ecx_up_ref`: increments the reference count (`ecx->refCnt++`)
under the object's mutex. -/
def wp_ecx_up_ref (s : LifeState) : LifeState :=
  { s with refCnt := s.refCnt + 1 }

/-- `wp_ecx_free`: decrements the reference count (`cnt = --ecx->refCnt`);
when the result is 0, frees the key material and deallocates the object. -/
def wp_ecx_free (s : LifeState) : LifeState :=
  let cnt := s.refCnt - 1
  if cnt = 0 then { refCnt := cnt, freedCount := s.freedCount + 1 }
  else { s with refCnt := cnt }

/-! ## Duplication and component availability -/

/-- `wp_ecx_dup`: duplicate an ECX key object.  The source explicitly
discards `selection` (`(void)selection`), creates a fresh object via
`wp_ecx_new` for the same descriptor and then bit-copies the key material
(`XMEMCPY`) and copies the `includePublic`, `hasPub` and `hasPriv` flags. -/
def wp_ecx_dup (running : Bool) (src : WpEcx) (selection : Nat) :
    Option WpEcx :=
  let _ := selection
  (wp_ecx_new running src.data).map fun dst =>
    { dst with key := src.key, includePublic := src.includePublic,
               hasPub := src.hasPub, hasPriv := src.hasPriv }

/-- `wp_ecx_has`: check the key object has the selected components (NULL
object modelled as `none`). -/
def wp_ecx_has (running : Bool) (ecx : Option WpEcx) (selection : Nat) :
    Bool :=
  if !running then false
  else
    match ecx with
    | none => false
    | some e =>
      if selection &&& POSSIBLE_SELECTIONS ≠ 0 then
        (if selection &&& SELECT_PUBLIC_KEY ≠ 0 then e.hasPub else true) &&
        (if selection &&& SELECT_PRIVATE_KEY ≠ 0 then e.hasPriv else true)
      else true

/-! ## Import (`wp_ecx_import`) -/

/-- The octet-string values `wp_ecx_import` locates in the incoming
`OSSL_PARAM` list: the entries named `OSSL_PKEY_PARAM_PRIV_KEY` and
`OSSL_PKEY_PARAM_PUB_KEY` (`none` when the name is absent).  The external
lookup `wp_params_get_octet_string_ptr` is modelled as this pre-located
view: it reports success and a NULL pointer for an absent name. -/
structure ImportParams where
  privVal : Option (List Nat)
  pubVal : Option (List Nat)
  deriving Repr, DecidableEq

/-- The public-key stage of `wp_ecx_import` followed by its final check:
if the public key is selected and present, import it and set `hasPub`;
afterwards fail when neither a private nor a public value was seen
(`privData == NULL && pubData == NULL`).  `privSeen` records whether the
preceding private stage located a private value. -/
def wp_ecx_import_pub_stage (ecx : WpEcx) (selection : Nat)
    (params : ImportParams) (privSeen : Bool) : Bool × WpEcx :=
  match (if selection &&& SELECT_PUBLIC_KEY ≠ 0 then params.pubVal
         else none) with
  | none => if privSeen then (true, ecx) else (false, ecx)
  | some d =>
    match ecx.data.importPub d ecx.key with
    | none => (false, ecx)
    | some k' => (true, { ecx with key := k', hasPub := true })

/-- `wp_ecx_import`: selection-gated import of key components from a
parameter list.  Returns the C return code and the (possibly mutated) key
object.  Mirrors the source order: running/selection checks, then the
private stage (a successful private import sets both `hasPriv` and
`hasPub`), then the public stage, then the nothing-imported check. -/
def wp_ecx_import (running : Bool) (ecx : WpEcx) (selection : Nat)
    (params : ImportParams) : Bool × WpEcx :=
  if !running then (false, ecx)
  else if selection &&& POSSIBLE_SELECTIONS = 0 then (false, ecx)
  else
    match (if selection &&& SELECT_PRIVATE_KEY ≠ 0 then params.privVal
           else none) with
    | none => wp_ecx_import_pub_stage ecx selection params false
    | some d =>
      match ecx.data.importPriv d ecx.key with
      | none => (false, ecx)
      | some k' =>
        wp_ecx_import_pub_stage
          { ecx with key := k', hasPriv := true, hasPub := true }
          selection params true

/-! ## Matching (`wp_ecx_match`) -/

/-- `wp_ecx_match_priv_key`: both objects must have private material
available; the raw private keys are exported and compared — the export
lengths must be equal and the bytes equal over the whole length
(`len1 != len2` check followed by `XMEMCMP(key1, key2, len1)`). -/
def wp_ecx_match_priv_key (a b : WpEcx) : Bool :=
  if a.hasPriv && b.hasPriv then
    match a.data.exportPriv a.key, b.data.exportPriv b.key with
    | some key1, some key2 => decide (key1 = key2)
    | _, _ => false
  else false

/-- `wp_ecx_match_pub_key`: same comparison for the public components. -/
def wp_ecx_match_pub_key (a b : WpEcx) : Bool :=
  if a.hasPub && b.hasPub then
    match a.data.exportPub a.key, b.data.exportPub b.key with
    | some key1, some key2 => decide (key1 = key2)
    | _, _ => false
  else false

/-- `wp_ecx_match`: for a nonzero selection the key types must agree;
then the private components are compared when selected, then the public
components when selected. -/
def wp_ecx_match (running : Bool) (a b : WpEcx) (selection : Nat) : Bool :=
  if !running then false
  else if selection ≠ 0 ∧ a.data.keyType ≠ b.data.keyType then false
  else if selection &&& SELECT_PRIVATE_KEY ≠ 0 ∧
      wp_ecx_match_priv_key a b = false then false
  else if selection &&& SELECT_PUBLIC_KEY ≠ 0 ∧
      wp_ecx_match_pub_key a b = false then false
  else true

/-! ## Security bits (`wp_ecx_get_security_bits`) -/

/-- `wp_ecx_get_security_bits`: derives the advertised security strength
from the descriptor's nominal bit size. -/
def wp_ecx_get_security_bits (ecx : WpEcx) : Int :=
  if ecx.data.bits ≥ 448 then 192
  else if ecx.data.bits ≥ 255 then 128
  else 0

/-! ## Generation parameters (`wp_ecx_gen_set_params`) -/

/-- `struct wp_EcxGenCtx` (the fields `wp_ecx_gen_set_params` touches):
the curve name the context was created for, as a C string modelled by the
list of its nonzero bytes (the terminator is the end of the list). -/
structure WpEcxGenCtx where
  selection : Nat
  name : List Nat
  deriving Repr, DecidableEq

/-- `XSTRNCMP(s1, s2, n) == 0` with C-string semantics: compare at most
`n` characters, stopping early at a terminator (`[]`) on either side. -/
def xstrncmp_eq : List Nat → List Nat → Nat → Bool
  | _, _, 0 => true
  | [], [], _ + 1 => true
  | [], _ :: _, _ + 1 => false
  | _ :: _, [], _ + 1 => false
  | c1 :: s1, c2 :: s2, n + 1 =>
    if c1 = c2 then xstrncmp_eq s1 s2 n else false

/-- `wp_ecx_gen_set_params`: looks up `OSSL_PKEY_PARAM_GROUP_NAME`
(modelled pre-located as `groupName`; absent is `none`); when present the
call succeeds iff `XSTRNCMP(name, ctx->name, XSTRLEN(name)) == 0` — note
the length bound is the length of the *incoming* name. -/
def wp_ecx_gen_set_params (ctx : WpEcxGenCtx)
    (groupName : Option (List Nat)) : Bool :=
  match groupName with
  | none => true
  | some name => xstrncmp_eq name ctx.name name.length

/-! ## Export (`wp_ecx_export_keypair`, `wp_ecx_export`) -/

/-- The names of `OSSL_PARAM` entries produced by export:
`OSSL_PKEY_PARAM_PUB_KEY` and `OSSL_PKEY_PARAM_PRIV_KEY`. -/
inductive ParamName where
  | pubKey
  | privKey
  deriving Repr, DecidableEq

/-- One constructed `OSSL_PARAM` entry: a name and its octet-string
value. -/
structure OsslParam where
  name : ParamName
  value : List Nat
  deriving Repr, DecidableEq

/-- `wp_ecx_export_keypair`: exports the public component into the next
parameter slot and, when `priv` is set, additionally exports the private
component.  Two faithful quirks of the source: the private entry is set
with name `OSSL_PKEY_PARAM_PUB_KEY` (not the private-key name), and the
return code `rc` of the private export is assigned but never tested (the
guard re-tests `ok`, which the private export cannot have changed), so a
failed private export is not reported; the entry then carries whatever the
freshly allocated buffer holds (modelled as `[]`). -/
def wp_ecx_export_keypair (ecx : WpEcx) (priv : Bool) :
    Option (List OsslParam) :=
  match ecx.data.exportPub ecx.key with
  | none => none
  | some pubBytes =>
    if priv then
      some [⟨ParamName.pubKey, pubBytes⟩,
            ⟨ParamName.pubKey, (ecx.data.exportPriv ecx.key).getD []⟩]
    else
      some [⟨ParamName.pubKey, pubBytes⟩]

/-- `wp_ecx_export`: builds the transient parameter list (private included
exactly when the private key is selected), then passes it to the callback.
Returns `(return code, whether the callback was invoked)`. -/
def wp_ecx_export (ecx : WpEcx) (selection : Nat)
    (paramCb : List OsslParam → Bool) : Bool × Bool :=
  match wp_ecx_export_keypair ecx
      (decide (selection &&& SELECT_PRIVATE_KEY ≠ 0)) with
  | none => (false, false)
  | some params => (paramCb params, true)

/-! ## Decode pipeline (`wp_ecx_dec_decode`) -/

/-- Modelled from the spec: the two container kinds the decode pipeline
handles — `WP_ENC_FORMAT_SPKI` (public) and `WP_ENC_FORMAT_PKI`
(private); the numeric constants live in a header outside this file's
sources, only their distinctness matters here. -/
inductive EncFormat where
  | spki
  | pki
  deriving Repr, DecidableEq

/-- `struct wp_EcxEncDecCtx` (the fields `wp_ecx_dec_decode` reads). -/
structure WpEcxEncDecCtx where
  keyType : Nat
  format : EncFormat
  deriving Repr, DecidableEq

/-- Observable outcome of one `wp_ecx_dec_decode` call: the C return
value, whether the data callback was invoked, and whether the partially
built key object was released (`wp_ecx_free`). -/
structure DecodeOutcome where
  ret : Bool
  cbInvoked : Bool
  freed : Bool
  deriving Repr, DecidableEq

/-- `wp_ecx_dec_decode`: control-flow model.  The external outcomes are
parameters: `readOk` for the DER/BIO read (`wp_read_der_bio`), `decodeOk`
for the structured decode primitive (`ctx->decode`, rejecting means the
bytes are not this container kind), `dataCbOk` for the data callback.
Creation of the fresh key object succeeds when the provider is running
and the context's key type is one of the four families; on any failure
after creation the object is freed, and a decode-primitive rejection
(`decoded == 0`) turns the overall result back into success. -/
def wp_ecx_dec_decode (running : Bool) (ctx : WpEcxEncDecCtx)
    (readOk : Bool) (decodeOk : Bool) (dataCbOk : Bool) : DecodeOutcome :=
  let created := running &&
    (ctx.keyType == 1 || ctx.keyType == 2 ||
     ctx.keyType == 3 || ctx.keyType == 4)
  if !created then { ret := false, cbInvoked := false, freed := false }
  else if !readOk then { ret := false, cbInvoked := false, freed := true }
  else if !decodeOk then
    { ret := true, cbInvoked := false, freed := true }
  else if !dataCbOk then { ret := false, cbInvoked := true, freed := true }
  else { ret := true, cbInvoked := true, freed := false }

/-! ## Concrete sample keys used by witnesses -/

/-- A fully populated X25519 key object. -/
def sampleX25519Key : WpEcx :=
  { key := ⟨some (List.replicate 32 1), some (List.replicate 32 2)⟩,
    data := x25519Data, refCnt := 1, includePublic := false,
    hasPub := true, hasPriv := true }

/-- A fully populated X448 key object. -/
def sampleX448Key : WpEcx :=
  { key := ⟨some (List.replicate 56 1), some (List.replicate 56 2)⟩,
    data := x448Data, refCnt := 1, includePublic := false,
    hasPub := true, hasPriv := true }

/-- A freshly created (empty) X25519 key object, as `wp_ecx_new`
returns it. -/
def sampleFreshX25519Key : WpEcx :=
  { key := WcKey.empty, data := x25519Data, refCnt := 1,
    includePublic := false, hasPub := false, hasPriv := false }

/-- An X25519 key object holding only public material. -/
def samplePubOnlyX25519Key : WpEcx :=
  { key := ⟨some (List.replicate 32 1), none⟩, data := x25519Data,
    refCnt := 1, includePublic := false, hasPub := true, hasPriv := false }

/-!
# Theorems
-/

/-- Iterating `wp_ecx_up_ref` adds to the reference count and frees
nothing. -/
theorem up_ref_iterate (m : Nat) (s : LifeState) :
    wp_ecx_up_ref^[m] s = { s with refCnt := s.refCnt + m } := by
  induction m generalizing s with
  | zero => simp
  | succ k ih =>
      rw [Function.iterate_succ_apply, ih]
      simp [wp_ecx_up_ref]
      omega

/-- Iterating `wp_ecx_free` `k ≤ n` times from a live state with positive
reference count `n` leaves count `n - k`, and the single destruction
happens exactly at step `n`. -/
theorem free_iterate (k : Nat) (n : Int) (hn : 0 < n) (hk : (k : Int) ≤ n) :
    wp_ecx_free^[k] { refCnt := n, freedCount := 0 } =
      { refCnt := n - k, freedCount := if (k : Int) = n then 1 else 0 } := by
  induction k generalizing n with
  | zero =>
      have h0 : ¬ ((0 : Int) = n) := by omega
      simp [h0]
  | succ j ih =>
      rw [Function.iterate_succ_apply]
      by_cases h1 : n = 1
      · subst h1
        have hj : j = 0 := by omega
        subst hj
        simp [wp_ecx_free]
      · have hgt : 1 < n := by omega
        have hstep : wp_ecx_free { refCnt := n, freedCount := 0 } =
            { refCnt := n - 1, freedCount := 0 } := by
          simp only [wp_ecx_free]
          rw [if_neg (by omega : ¬ (n - 1 = 0))]
        rw [hstep, ih (n - 1) (by omega) (by push_cast at hk ⊢; omega)]
        simp only [LifeState.mk.injEq]
        push_cast
        refine ⟨by omega, ?_⟩
        by_cases hc : (j : Int) + 1 = n
        · rw [if_pos (by omega : (j : Int) = n - 1), if_pos hc]
        · rw [if_neg (by omega : ¬ ((j : Int) = n - 1)), if_neg hc]

/-- C1: starting from a key object returned by `wp_ecx_new` (reference
count 1), performing `N-1` calls to `wp_ecx_up_ref` followed by `N` calls
to `wp_ecx_free` destroys the key material and deallocates the object
exactly once, at the `N`-th `wp_ecx_free` and never before. -/
theorem wp_ecx_refcount_exactly_once (N : Nat) (hN : 1 ≤ N) :
    (∀ k < N,
      (wp_ecx_free^[k] (wp_ecx_up_ref^[N - 1] newLifeState)).freedCount = 0) ∧
    (wp_ecx_free^[N] (wp_ecx_up_ref^[N - 1] newLifeState)).freedCount = 1 := by
  have hup : wp_ecx_up_ref^[N - 1] newLifeState =
      { refCnt := (N : Int), freedCount := 0 } := by
    rw [up_ref_iterate]
    simp only [newLifeState, LifeState.mk.injEq]
    refine ⟨by omega, by trivial⟩
  have hpos : (0 : Int) < (N : Int) := by omega
  constructor
  · intro k hk
    rw [hup, free_iterate k N hpos (by omega),
      if_neg (by omega : ¬ ((k : Int) = (N : Int)))]
  · rw [hup, free_iterate N N hpos (by omega), if_pos rfl]

/-- Witness for C1 at `N = 3`. -/
theorem wp_ecx_refcount_exactly_once_witness :
    (∀ k < 3,
      (wp_ecx_free^[k] (wp_ecx_up_ref^[3 - 1] newLifeState)).freedCount = 0) ∧
    (wp_ecx_free^[3] (wp_ecx_up_ref^[3 - 1] newLifeState)).freedCount = 1 :=
  wp_ecx_refcount_exactly_once 3 (by decide)

/-- C5: the security-bits value is 192 when the descriptor's nominal bit
size is at least 448, 128 when it is at least 255 but below 448, and 0
for any smaller nominal size. -/
theorem wp_ecx_get_security_bits_spec (ecx : WpEcx) :
    (448 ≤ ecx.data.bits → wp_ecx_get_security_bits ecx = 192) ∧
    (255 ≤ ecx.data.bits → ecx.data.bits < 448 →
      wp_ecx_get_security_bits ecx = 128) ∧
    (ecx.data.bits < 255 → wp_ecx_get_security_bits ecx = 0) := by
  unfold wp_ecx_get_security_bits
  refine ⟨fun h => ?_, fun h1 h2 => ?_, fun h => ?_⟩
  · rw [if_pos (by omega)]
  · rw [if_neg (by omega), if_pos (by omega)]
  · rw [if_neg (by omega), if_neg (by omega)]

/-- Witness for C5 on the X448 (448-bit) and X25519 (255-bit)
descriptors. -/
theorem wp_ecx_get_security_bits_spec_witness :
    wp_ecx_get_security_bits sampleX448Key = 192 ∧
    wp_ecx_get_security_bits sampleX25519Key = 128 :=
  ⟨(wp_ecx_get_security_bits_spec sampleX448Key).1 (by decide),
   (wp_ecx_get_security_bits_spec sampleX25519Key).2.1 (by decide) (by decide)⟩

/-- C3: `wp_ecx_dup` ignores the selection and produces a full copy:
same descriptor, bit-identical key material, same `hasPub`, `hasPriv`
and `includePublic` flags; in particular the private availability of the
duplicate equals that of the source even under a public-only selection. -/
theorem wp_ecx_dup_full_copy (running : Bool) (src : WpEcx)
    (selection : Nat) (hrun : running = true) :
    (∀ selection', wp_ecx_dup running src selection =
        wp_ecx_dup running src selection') ∧
    ∃ dst, wp_ecx_dup running src selection = some dst ∧
      dst.data = src.data ∧ dst.key = src.key ∧
      dst.hasPub = src.hasPub ∧ dst.hasPriv = src.hasPriv ∧
      dst.includePublic = src.includePublic ∧
      wp_ecx_has true (some dst) SELECT_PRIVATE_KEY =
        wp_ecx_has true (some src) SELECT_PRIVATE_KEY := by
  subst hrun
  refine ⟨fun s' => rfl, ?_⟩
  exact ⟨_, rfl, rfl, rfl, rfl, rfl, rfl, rfl⟩

/-- Witness for C3: duplicating a fully populated X25519 key under a
public-only selection. -/
theorem wp_ecx_dup_full_copy_witness :
    ∃ dst, wp_ecx_dup true sampleX25519Key SELECT_PUBLIC_KEY = some dst ∧
      dst.data = sampleX25519Key.data ∧ dst.key = sampleX25519Key.key ∧
      dst.hasPub = sampleX25519Key.hasPub ∧
      dst.hasPriv = sampleX25519Key.hasPriv ∧
      dst.includePublic = sampleX25519Key.includePublic ∧
      wp_ecx_has true (some dst) SELECT_PRIVATE_KEY =
        wp_ecx_has true (some sampleX25519Key) SELECT_PRIVATE_KEY :=
  (wp_ecx_dup_full_copy true sampleX25519Key SELECT_PUBLIC_KEY rfl).2

/-- `XSTRNCMP(s, t, XSTRLEN(s)) == 0` holds exactly when `s` is a prefix
of `t` (as C strings). -/
theorem xstrncmp_eq_length_prefix_iff (s t : List Nat) :
    xstrncmp_eq s t s.length = true ↔ s <+: t := by
  induction s generalizing t with
  | nil => simp [xstrncmp_eq]
  | cons c cs ih =>
      cases t with
      | nil => simp [xstrncmp_eq, List.prefix_nil]
      | cons d ds =>
          by_cases hcd : c = d
          · subst hcd
            simp [xstrncmp_eq, List.cons_prefix_cons, ih]
          · simp [xstrncmp_eq, hcd, List.cons_prefix_cons]

/-- C6 counterexample: with expected curve name "X25519"
(bytes `[88,50,53,53,49,57]`) the group-name value "X25"
(bytes `[88,50,53]`) does not match the expected name, yet
`wp_ecx_gen_set_params` succeeds, because the comparison length is the
incoming name's length. -/
theorem wp_ecx_gen_set_params_prefix_counterexample :
    wp_ecx_gen_set_params ⟨3, [88, 50, 53, 53, 49, 57]⟩
        (some [88, 50, 53]) = true ∧
    ([88, 50, 53] : List Nat) ≠ [88, 50, 53, 53, 49, 57] := by decide

/-- C6 amended: `wp_ecx_gen_set_params` succeeds when the group-name
entry is absent; when present it succeeds iff the supplied name is a
prefix of the context's expected curve name (the `XSTRNCMP` bound is
`XSTRLEN` of the supplied name) — in particular it succeeds when the
names are equal, and fails whenever the value is not such a prefix. -/
theorem wp_ecx_gen_set_params_spec :
    (∀ ctx : WpEcxGenCtx, wp_ecx_gen_set_params ctx none = true) ∧
    (∀ (ctx : WpEcxGenCtx) (name : List Nat),
        wp_ecx_gen_set_params ctx (some name) = true ↔ name <+: ctx.name) ∧
    (∀ ctx : WpEcxGenCtx, wp_ecx_gen_set_params ctx (some ctx.name) = true) :=
  ⟨fun _ => rfl,
   fun ctx name => xstrncmp_eq_length_prefix_iff name ctx.name,
   fun ctx => (xstrncmp_eq_length_prefix_iff ctx.name ctx.name).mpr
     List.prefix_rfl⟩

/-- C8: in the decode pipeline, a rejection by the decode primitive (the
bytes do not parse as this container kind) frees the partially built key
object, skips the data callback, and still returns overall success; a
failure after the bytes were recognized (the data callback failing) also
frees the object but returns failure. -/
theorem wp_ecx_dec_decode_spec (ctx : WpEcxEncDecCtx) (cbOk : Bool)
    (hkt : ctx.keyType = 1 ∨ ctx.keyType = 2 ∨ ctx.keyType = 3 ∨
      ctx.keyType = 4) :
    wp_ecx_dec_decode true ctx true false cbOk =
      { ret := true, cbInvoked := false, freed := true } ∧
    wp_ecx_dec_decode true ctx true true false =
      { ret := false, cbInvoked := true, freed := true } := by
  have hc : (ctx.keyType == 1 || ctx.keyType == 2 ||
      ctx.keyType == 3 || ctx.keyType == 4) = true := by
    rcases hkt with h | h | h | h <;> simp [h]
  constructor <;> simp [wp_ecx_dec_decode, hc]

/-- Witness for C8 on an X25519 public-key (SPKI) decoder context. -/
theorem wp_ecx_dec_decode_spec_witness :
    wp_ecx_dec_decode true ⟨1, EncFormat.spki⟩ true false true =
      { ret := true, cbInvoked := false, freed := true } ∧
    wp_ecx_dec_decode true ⟨1, EncFormat.spki⟩ true true false =
      { ret := false, cbInvoked := true, freed := true } :=
  wp_ecx_dec_decode_spec ⟨1, EncFormat.spki⟩ true (Or.inl rfl)

/-- C9 counterexample: for X448 the public-key import is the raw
primitive import with no masking adapter; importing 56 bytes whose last byte is
`0x80` succeeds but yields a different internal public key than the same
bytes with the top bit cleared. -/
theorem wp_x448_import_public_no_mask :
    (x448Data.importPub (List.replicate 55 0 ++ [128])
        WcKey.empty).isSome = true ∧
    (x448Data.importPub (List.replicate 55 0 ++ [0])
        WcKey.empty).isSome = true ∧
    x448Data.importPub (List.replicate 55 0 ++ [128]) WcKey.empty ≠
      x448Data.importPub (List.replicate 55 0 ++ [0]) WcKey.empty := by
  decide

/-- C9 amended: the top-bit masking holds for the X25519 family only.
Its adapter `wp_x25519_import_public` clears the top bit of the last byte
before the primitive import, so a public key whose last byte has the top
bit set imports to the same internal key as the same bytes with the bit
cleared, and a 32-byte input always imports successfully.  X448 has no
such adapter (see the counterexample). -/
theorem wp_x25519_import_public_masks_top_bit (bs : List Nat) (k : WcKey)
    (hbit : bs.getD 31 0 / 128 % 2 = 1) :
    wp_x25519_import_public bs k =
      wp_x25519_import_public (bs.set 31 (bs.getD 31 0 % 128)) k ∧
    (bs.length = 32 → (wp_x25519_import_public bs k).isSome = true) := by
  have h31 : CURVE25519_KEYSIZE - 1 = 31 := rfl
  have hlen : 31 < bs.length := by
    by_contra hle
    push_neg at hle
    rw [List.getD_eq_default _ _ hle] at hbit
    simp at hbit
  have hset : (bs.set 31 (bs.getD 31 0 % 128)).getD 31 0 =
      bs.getD 31 0 % 128 := by
    rw [List.getD_eq_getElem?_getD, List.getElem?_set_self hlen]
    rfl
  have hmod : bs.getD 31 0 % 128 / 128 % 2 = 0 := by
    rw [Nat.div_eq_of_lt (Nat.mod_lt _ (by norm_num))]
  constructor
  · unfold wp_x25519_import_public
    simp only [h31, hset, hmod]
    rw [if_pos hbit, if_neg (by norm_num)]
  · intro hl
    unfold wp_x25519_import_public
    simp only [h31]
    rw [if_pos hbit]
    unfold wc_import_public
    rw [if_pos (by rw [List.length_set]; exact hl)]
    rfl

/-- Witness for C9 (amended) on a concrete 32-byte input with the top bit
of the last byte set. -/
theorem wp_x25519_import_public_masks_top_bit_witness :
    wp_x25519_import_public (List.replicate 31 0 ++ [129]) WcKey.empty =
      wp_x25519_import_public ((List.replicate 31 0 ++ [129]).set 31
        ((List.replicate 31 0 ++ [129]).getD 31 0 % 128)) WcKey.empty ∧
    ((List.replicate 31 0 ++ [129]).length = 32 →
      (wp_x25519_import_public (List.replicate 31 0 ++ [129])
        WcKey.empty).isSome = true) :=
  wp_x25519_import_public_masks_top_bit (List.replicate 31 0 ++ [129])
    WcKey.empty (by decide)

/-- C7 (code deviates from the claim): exporting a fully populated X25519
key with the private component selected produces a parameter list whose
second entry — the private key bytes — is set under the *public*-key
parameter name; no entry in the list carries the private-key parameter
name. -/
theorem wp_ecx_export_priv_entry_misnamed :
    wp_ecx_export_keypair sampleX25519Key true =
      some [⟨ParamName.pubKey, List.replicate 32 1⟩,
            ⟨ParamName.pubKey, List.replicate 32 2⟩] ∧
    ∀ p ∈ (wp_ecx_export_keypair sampleX25519Key true).getD [],
      p.name ≠ ParamName.privKey := by
  decide

/-- C10: when the private component is selected and the public-key export
primitive succeeds, `wp_ecx_export` invokes the callback and returns its
result, with no dependence on the private export's return code (the
source assigns `rc` but never tests it) — a failing private export is
never reported to the caller. -/
theorem wp_ecx_export_ignores_priv_rc (ecx : WpEcx) (selection : Nat)
    (paramCb : List OsslParam → Bool) (pubBytes : List Nat)
    (hsel : selection &&& SELECT_PRIVATE_KEY ≠ 0)
    (hpub : ecx.data.exportPub ecx.key = some pubBytes) :
    (wp_ecx_export ecx selection paramCb).2 = true ∧
    (wp_ecx_export ecx selection paramCb).1 =
      paramCb [⟨ParamName.pubKey, pubBytes⟩,
               ⟨ParamName.pubKey, (ecx.data.exportPriv ecx.key).getD []⟩] := by
  unfold wp_ecx_export wp_ecx_export_keypair
  simp [hpub, hsel]

/-- Witness for C10: a public-only X25519 key (whose private export
fails) with the private component selected — the callback still runs and
the call still succeeds. -/
theorem wp_ecx_export_ignores_priv_rc_witness :
    (wp_ecx_export samplePubOnlyX25519Key SELECT_PRIVATE_KEY
        (fun _ => true)).2 = true ∧
    (wp_ecx_export samplePubOnlyX25519Key SELECT_PRIVATE_KEY
        (fun _ => true)).1 =
      (fun (_ : List OsslParam) => true)
        [⟨ParamName.pubKey, List.replicate 32 1⟩,
         ⟨ParamName.pubKey, (samplePubOnlyX25519Key.data.exportPriv
            samplePubOnlyX25519Key.key).getD []⟩] :=
  wp_ecx_export_ignores_priv_rc samplePubOnlyX25519Key SELECT_PRIVATE_KEY
    (fun _ => true) (List.replicate 32 1) (by decide) rfl

/-- If the public stage of `wp_ecx_import` reports failure, it leaves the
key object it was given unchanged. -/
theorem wp_ecx_import_pub_stage_fail (ecx : WpEcx) (selection : Nat)
    (params : ImportParams) (privSeen : Bool)
    (h : (wp_ecx_import_pub_stage ecx selection params privSeen).1 = false) :
    (wp_ecx_import_pub_stage ecx selection params privSeen).2 = ecx := by
  unfold wp_ecx_import_pub_stage at h ⊢
  cases hv : (if selection &&& SELECT_PUBLIC_KEY ≠ 0 then params.pubVal
      else none) with
  | none =>
      rw [hv] at h
      cases privSeen with
      | false => rfl
      | true => simp at h
  | some d =>
      rw [hv] at h
      dsimp only at h ⊢
      cases him : ecx.data.importPub d ecx.key with
      | none => rfl
      | some k' => rw [him] at h; simp at h

/-- C2 counterexample: importing into a fresh X25519 key object with both
components selected, a valid private value and an invalid (wrong-length)
public value: the call fails, yet the private component has been applied
and the availability flags changed from their prior values. -/
theorem wp_ecx_import_partial_counterexample :
    (wp_ecx_import true sampleFreshX25519Key SELECT_KEYPAIR
        ⟨some (List.replicate 32 7), some [1]⟩).1 = false ∧
    (wp_ecx_import true sampleFreshX25519Key SELECT_KEYPAIR
        ⟨some (List.replicate 32 7), some [1]⟩).2.hasPriv = true ∧
    sampleFreshX25519Key.hasPriv = false ∧
    (wp_ecx_import true sampleFreshX25519Key SELECT_KEYPAIR
        ⟨some (List.replicate 32 7), some [1]⟩).2.key.privBytes =
      some (List.replicate 32 7) ∧
    sampleFreshX25519Key.key.privBytes = none := by
  decide

/-- C2 amended: when `wp_ecx_import` returns failure, the key object is
unchanged — unless the selection included the private key, the parameter
list carried a private value whose primitive import succeeded, and the
failure arose afterwards in the public stage; in that case exactly the
private component has been applied, with both `hasPriv` and `hasPub`
set (a state consistent with its availability flags, but not the prior
one). -/
theorem wp_ecx_import_failure_state (running : Bool) (ecx : WpEcx)
    (selection : Nat) (params : ImportParams)
    (h : (wp_ecx_import running ecx selection params).1 = false) :
    (wp_ecx_import running ecx selection params).2 = ecx ∨
    (selection &&& SELECT_PRIVATE_KEY ≠ 0 ∧
     ∃ d k', params.privVal = some d ∧
       ecx.data.importPriv d ecx.key = some k' ∧
       (wp_ecx_import running ecx selection params).2 =
         { ecx with key := k', hasPriv := true, hasPub := true }) := by
  cases running with
  | false => exact Or.inl rfl
  | true =>
    unfold wp_ecx_import at h ⊢
    rw [if_neg (by simp : ¬ ((!true) = true))] at h ⊢
    by_cases hsel : selection &&& POSSIBLE_SELECTIONS = 0
    · rw [if_pos hsel]
      exact Or.inl rfl
    · rw [if_neg hsel] at h ⊢
      cases hpv : (if selection &&& SELECT_PRIVATE_KEY ≠ 0 then params.privVal
          else none) with
      | none =>
          rw [hpv] at h
          exact Or.inl (wp_ecx_import_pub_stage_fail _ _ _ _ h)
      | some d =>
          rw [hpv] at h
          have hb : selection &&& SELECT_PRIVATE_KEY ≠ 0 := by
            by_contra hnb
            rw [if_neg (by simp [hnb])] at hpv
            exact Option.noConfusion hpv
          rw [if_pos hb] at hpv
          dsimp only at h ⊢
          cases him : ecx.data.importPriv d ecx.key with
          | none =>
              rw [him] at h
              exact Or.inl rfl
          | some k' =>
              rw [him] at h
              exact Or.inr ⟨hb, d, k', hpv, him,
                wp_ecx_import_pub_stage_fail _ _ _ _ h⟩

/-- Witness for C2 (amended) at the counterexample input: the failure
leaves the object in the private-applied state described by the right
disjunct. -/
theorem wp_ecx_import_failure_state_witness :
    (wp_ecx_import true sampleFreshX25519Key SELECT_KEYPAIR
        ⟨some (List.replicate 32 7), some [1]⟩).2 = sampleFreshX25519Key ∨
    (SELECT_KEYPAIR &&& SELECT_PRIVATE_KEY ≠ 0 ∧
     ∃ d k', (ImportParams.mk (some (List.replicate 32 7))
         (some [1])).privVal = some d ∧
       sampleFreshX25519Key.data.importPriv d
         sampleFreshX25519Key.key = some k' ∧
       (wp_ecx_import true sampleFreshX25519Key SELECT_KEYPAIR
          ⟨some (List.replicate 32 7), some [1]⟩).2 =
         { sampleFreshX25519Key with
             key := k', hasPriv := true, hasPub := true }) :=
  wp_ecx_import_failure_state true sampleFreshX25519Key SELECT_KEYPAIR
    ⟨some (List.replicate 32 7), some [1]⟩ (by decide)

/-- Characterization of the private-component comparison: it succeeds
exactly when both keys have private material available and the exported
raw private bytes agree (same length and byte-for-byte equal, i.e. the
same byte list). -/
theorem wp_ecx_match_priv_key_eq_true (a b : WpEcx) :
    wp_ecx_match_priv_key a b = true ↔
      (a.hasPriv = true ∧ b.hasPriv = true ∧
       ∃ k, a.data.exportPriv a.key = some k ∧
            b.data.exportPriv b.key = some k) := by
  unfold wp_ecx_match_priv_key
  by_cases hab : (a.hasPriv && b.hasPriv) = true
  · rw [if_pos hab]
    rw [Bool.and_eq_true] at hab
    cases ha : a.data.exportPriv a.key with
    | none => simp [hab, ha]
    | some k1 =>
        cases hb : b.data.exportPriv b.key with
        | none => simp [hab, ha, hb]
        | some k2 => simp [hab, ha, hb, eq_comm]
  · rw [if_neg hab]
    rw [Bool.and_eq_true] at hab
    simp only [Bool.false_eq_true, false_iff]
    tauto

/-- Characterization of the public-component comparison. -/
theorem wp_ecx_match_pub_key_eq_true (a b : WpEcx) :
    wp_ecx_match_pub_key a b = true ↔
      (a.hasPub = true ∧ b.hasPub = true ∧
       ∃ k, a.data.exportPub a.key = some k ∧
            b.data.exportPub b.key = some k) := by
  unfold wp_ecx_match_pub_key
  by_cases hab : (a.hasPub && b.hasPub) = true
  · rw [if_pos hab]
    rw [Bool.and_eq_true] at hab
    cases ha : a.data.exportPub a.key with
    | none => simp [hab, ha]
    | some k1 =>
        cases hb : b.data.exportPub b.key with
        | none => simp [hab, ha, hb]
        | some k2 => simp [hab, ha, hb, eq_comm]
  · rw [if_neg hab]
    rw [Bool.and_eq_true] at hab
    simp only [Bool.false_eq_true, false_iff]
    tauto

/-- The private-component comparison is symmetric. -/
theorem wp_ecx_match_priv_key_symm (a b : WpEcx) :
    wp_ecx_match_priv_key a b = wp_ecx_match_priv_key b a := by
  unfold wp_ecx_match_priv_key
  rw [Bool.and_comm]
  by_cases hab : (b.hasPriv && a.hasPriv) = true
  · rw [if_pos hab, if_pos hab]
    cases ha : a.data.exportPriv a.key with
    | none =>
        cases hb : b.data.exportPriv b.key with
        | none => rfl
        | some k2 => rfl
    | some k1 =>
        cases hb : b.data.exportPriv b.key with
        | none => rfl
        | some k2 => exact decide_eq_decide.mpr eq_comm
  · rw [if_neg hab, if_neg hab]

/-- The public-component comparison is symmetric. -/
theorem wp_ecx_match_pub_key_symm (a b : WpEcx) :
    wp_ecx_match_pub_key a b = wp_ecx_match_pub_key b a := by
  unfold wp_ecx_match_pub_key
  rw [Bool.and_comm]
  by_cases hab : (b.hasPub && a.hasPub) = true
  · rw [if_pos hab, if_pos hab]
    cases ha : a.data.exportPub a.key with
    | none =>
        cases hb : b.data.exportPub b.key with
        | none => rfl
        | some k2 => rfl
    | some k1 =>
        cases hb : b.data.exportPub b.key with
        | none => rfl
        | some k2 => exact decide_eq_decide.mpr eq_comm
  · rw [if_neg hab, if_neg hab]

/-- Characterization of `wp_ecx_match` with the provider running: true
exactly when the key types agree (for a nonzero selection) and each
selected component comparison succeeds. -/
theorem wp_ecx_match_eq_true (a b : WpEcx) (selection : Nat) :
    wp_ecx_match true a b selection = true ↔
      ((selection ≠ 0 → a.data.keyType = b.data.keyType) ∧
       (selection &&& SELECT_PRIVATE_KEY ≠ 0 →
         wp_ecx_match_priv_key a b = true) ∧
       (selection &&& SELECT_PUBLIC_KEY ≠ 0 →
         wp_ecx_match_pub_key a b = true)) := by
  unfold wp_ecx_match
  rw [if_neg (by simp : ¬ ((!true) = true))]
  split_ifs with h1 h2 h3
  · simp only [Bool.false_eq_true, false_iff]
    rintro ⟨hA, _, _⟩
    exact h1.2 (hA h1.1)
  · simp only [Bool.false_eq_true, false_iff]
    rintro ⟨_, hB, _⟩
    rw [hB h2.1] at h2
    exact Bool.noConfusion h2.2
  · simp only [Bool.false_eq_true, false_iff]
    rintro ⟨_, _, hC⟩
    rw [hC h3.1] at h3
    exact Bool.noConfusion h3.2
  · simp only [true_iff]
    push_neg at h1 h2 h3
    refine ⟨h1, fun hp => ?_, fun hp => ?_⟩
    · cases hm : wp_ecx_match_priv_key a b with
      | false => exact absurd hm (h2 hp)
      | true => rfl
    · cases hm : wp_ecx_match_pub_key a b with
      | false => exact absurd hm (h3 hp)
      | true => rfl

/-- C4: `wp_ecx_match` with any nonzero selection returns true only when
the two keys have the same key type; a selected component matches iff
both keys have it and their exported raw bytes are the same full byte
string; `match` is reflexive on fully populated keys (selection
keypair) and symmetric in its two key arguments. -/
theorem wp_ecx_match_spec :
    (∀ (a b : WpEcx) (selection : Nat), selection ≠ 0 →
        wp_ecx_match true a b selection = true →
        a.data.keyType = b.data.keyType) ∧
    (∀ (a b : WpEcx) (selection : Nat),
        wp_ecx_match true a b selection = true ↔
          ((selection ≠ 0 → a.data.keyType = b.data.keyType) ∧
           (selection &&& SELECT_PRIVATE_KEY ≠ 0 →
             (a.hasPriv = true ∧ b.hasPriv = true ∧
              ∃ k, a.data.exportPriv a.key = some k ∧
                   b.data.exportPriv b.key = some k)) ∧
           (selection &&& SELECT_PUBLIC_KEY ≠ 0 →
             (a.hasPub = true ∧ b.hasPub = true ∧
              ∃ k, a.data.exportPub a.key = some k ∧
                   b.data.exportPub b.key = some k)))) ∧
    (∀ k : WpEcx, k.hasPub = true → k.hasPriv = true →
        (k.data.exportPub k.key).isSome = true →
        (k.data.exportPriv k.key).isSome = true →
        wp_ecx_match true k k SELECT_KEYPAIR = true) ∧
    (∀ (running : Bool) (a b : WpEcx) (selection : Nat),
        wp_ecx_match running a b selection =
          wp_ecx_match running b a selection) := by
  refine ⟨?_, ?_, ?_, ?_⟩
  · intro a b selection hs h
    exact ((wp_ecx_match_eq_true a b selection).mp h).1 hs
  · intro a b selection
    rw [wp_ecx_match_eq_true]
    rw [wp_ecx_match_priv_key_eq_true, wp_ecx_match_pub_key_eq_true]
  · intro k hpub hpriv hpubSome hprivSome
    obtain ⟨pk, hpk⟩ := Option.isSome_iff_exists.mp hpubSome
    obtain ⟨sk, hsk⟩ := Option.isSome_iff_exists.mp hprivSome
    rw [wp_ecx_match_eq_true]
    refine ⟨fun _ => rfl, fun _ => ?_, fun _ => ?_⟩
    · rw [wp_ecx_match_priv_key_eq_true]
      exact ⟨hpriv, hpriv, sk, hsk, hsk⟩
    · rw [wp_ecx_match_pub_key_eq_true]
      exact ⟨hpub, hpub, pk, hpk, hpk⟩
  · intro running a b selection
    cases running with
    | false => rfl
    | true =>
        rw [Bool.eq_iff_iff, wp_ecx_match_eq_true, wp_ecx_match_eq_true,
          wp_ecx_match_priv_key_symm, wp_ecx_match_pub_key_symm]
        constructor <;> rintro ⟨hA, hB, hC⟩ <;>
          exact ⟨fun hs => (hA hs).symm, hB, hC⟩

/-- Witness for C4: reflexivity at a concrete fully populated X25519 key
with the keypair selection. -/
theorem wp_ecx_match_spec_witness :
    wp_ecx_match true sampleX25519Key sampleX25519Key SELECT_KEYPAIR =
      true :=
  wp_ecx_match_spec.2.2.1 sampleX25519Key rfl rfl (by decide) (by decide)
